import Mathlib

set_option maxRecDepth 4000

/-! Shallow embedding of the rank-then-score essay grading pipeline of this
repository (src/app/api/score_essay/route.ts, src/lib/middleware/request-validator.ts,
src/lib/prompts/rank-score-prompts.ts).  JavaScript numbers are modelled as exact
rationals; every numeric value handled by the claims is a small integer, for which
IEEE-754 doubles are exact. -/

/-- JSON values as produced by JavaScript's JSON.parse. -/
inductive Json where
  | null
  | bool (b : Bool)
  | num (q : ℚ)
  | str (s : String)
  | arr (elems : List Json)
  | obj (fields : List (String × Json))

/-- JavaScript truthiness of a JSON value (NaN cannot occur: JSON.parse never
produces NaN). -/
def truthy : Json → Bool
  | .null => false
  | .bool b => b
  | .num q => q != 0
  | .str s => s != ""
  | .arr _ => true
  | .obj _ => true

/-- Property lookup on a plain object: the latest assignment wins, matching the
behaviour of duplicate keys in a JavaScript object literal built by JSON.parse. -/
def lookupLast (fields : List (String × Json)) (k : String) : Option Json :=
  match fields with
  | [] => none
  | (k', v) :: rest =>
    match lookupLast rest k with
    | some r => some r
    | none => if k' = k then some v else none

/-- `v[k]` on a value known to be neither null nor undefined: objects yield the
field (or undefined = `none`), primitives and arrays yield undefined for the
keys used by this route. -/
def jsGet : Json → String → Option Json
  | .obj fields, k => lookupLast fields k
  | _, _ => none

/-- `v[k]` in a position where `v` may be null: JavaScript throws a TypeError on
null property access; other non-objects just give undefined. -/
def jsGetField (v : Json) (k : String) : Except String (Option Json) :=
  match v with
  | .null => .error "TypeError: Cannot read properties of null"
  | .obj fields => .ok (lookupLast fields k)
  | _ => .ok none

/-- JavaScript strict equality `===` between two possibly-undefined values
(`none` = undefined).  Objects and arrays compare by reference; two values
coming out of distinct JSON.parse calls are never reference-equal, so those
cases are `false` here. -/
def jsStrictEq : Option Json → Option Json → Bool
  | none, none => true
  | some (.num p), some (.num q) => p == q
  | some (.str s), some (.str t) => s == t
  | some (.bool x), some (.bool y) => x == y
  | some .null, some .null => true
  | _, _ => false

/-- Whitespace for JavaScript's regexp `\s` and `String.prototype.trim`. -/
def isWsJS (c : Char) : Bool :=
  c = ' ' || c = '\t' || c = '\n' || c = '\r' || c = '\x0b' || c = '\x0c' || c = ' '

/-- Whitespace accepted between JSON tokens (exactly the four characters of the
JSON grammar). -/
def isWsJSON (c : Char) : Bool :=
  c = ' ' || c = '\t' || c = '\n' || c = '\r'

/-- `String.prototype.trim`. -/
def jsTrimStr (s : String) : String :=
  ⟨((s.data.dropWhile isWsJS).reverse.dropWhile isWsJS).reverse⟩

/-- Decimal digits of a numeral, most significant first, folded to a Nat. -/
def digitsToNat (ds : List Char) : Nat :=
  ds.foldl (fun acc c => acc * 10 + (c.toNat - 48)) 0

/-- JavaScript's ToNumber on a string (used by `<`/`>` comparisons and by
arithmetic when a non-number slips through).  Only plain decimal literals are
modelled — hex, `Infinity` and exotic forms do not occur in this pipeline;
`none` stands for NaN. -/
def strToNumber (s : String) : Option ℚ :=
  let t := (jsTrimStr s).data
  if t.isEmpty then some 0
  else
    let (sign, t) : ℚ × List Char :=
      match t with
      | '-' :: rest => (-1, rest)
      | '+' :: rest => (1, rest)
      | _ => (1, t)
    let intPart := t.takeWhile Char.isDigit
    let t1 := t.drop intPart.length
    match t1 with
    | [] =>
      if intPart.isEmpty then none
      else some (sign * (digitsToNat intPart : ℚ))
    | '.' :: fracRest =>
      let fracPart := fracRest.takeWhile Char.isDigit
      let t2 := fracRest.drop fracPart.length
      if t2.isEmpty && !(intPart.isEmpty && fracPart.isEmpty) then
        some (sign * ((digitsToNat intPart : ℚ) +
          (digitsToNat fracPart : ℚ) / ((10 : ℚ) ^ fracPart.length)))
      else none
    | _ => none

/-- JavaScript's ToNumber coercion; `none` stands for NaN.  Array/object
coercion (via ToPrimitive) is not modelled — no theorem below depends on it. -/
def toNumber : Json → Option ℚ
  | .num q => some q
  | .bool b => some (if b then 1 else 0)
  | .null => some 0
  | .str s => strToNumber s
  | .arr _ => none
  | .obj _ => none

/-- `v < q` where `v` is coerced by ToNumber; comparisons with NaN are false. -/
def jsLtNum (v : Json) (q : ℚ) : Bool :=
  match toNumber v with
  | some p => p < q
  | none => false

/-- `v > q` where `v` is coerced by ToNumber; comparisons with NaN are false. -/
def jsGtNum (v : Json) (q : ℚ) : Bool :=
  match toNumber v with
  | some p => p > q
  | none => false

/-- `Math.round` on an exact rational: round half toward positive infinity. -/
def jsRound (q : ℚ) : ℤ := (q + 1/2).floor

/-- Hexadecimal digit value. -/
def hexVal (c : Char) : Option Nat :=
  if '0' ≤ c && c ≤ '9' then some (c.toNat - 48)
  else if 'a' ≤ c && c ≤ 'f' then some (c.toNat - 87)
  else if 'A' ≤ c && c ≤ 'F' then some (c.toNat - 55)
  else none

/-- Body of a JSON string literal, after the opening quote: returns the decoded
characters and the input after the closing quote.  Surrogate pairs in `\u`
escapes are combined; a lone surrogate becomes U+FFFD, since Lean strings hold
unicode scalar values (no claim depends on lone surrogates). -/
def parseStringBody : Nat → List Char → Option (List Char × List Char)
  | 0, _ => none
  | _, [] => none
  | fuel+1, c :: rest =>
    if c = '"' then some ([], rest)
    else if c = '\\' then
      match rest with
      | [] => none
      | e :: rest2 =>
        let simple : Option Char :=
          if e = '"' then some '"'
          else if e = '\\' then some '\\'
          else if e = '/' then some '/'
          else if e = 'b' then some '\x08'
          else if e = 'f' then some '\x0c'
          else if e = 'n' then some '\n'
          else if e = 'r' then some '\r'
          else if e = 't' then some '\t'
          else none
        match simple with
        | some ch =>
          match parseStringBody fuel rest2 with
          | some (cs, r) => some (ch :: cs, r)
          | none => none
        | none =>
          if e = 'u' then
            match rest2 with
            | h1 :: h2 :: h3 :: h4 :: rest3 =>
              match hexVal h1, hexVal h2, hexVal h3, hexVal h4 with
              | some d1, some d2, some d3, some d4 =>
                let code := ((d1 * 16 + d2) * 16 + d3) * 16 + d4
                if 0xD800 ≤ code && code ≤ 0xDBFF then
                  match rest3 with
                  | '\\' :: 'u' :: k1 :: k2 :: k3 :: k4 :: rest4 =>
                    match hexVal k1, hexVal k2, hexVal k3, hexVal k4 with
                    | some e1, some e2, some e3, some e4 =>
                      let low := ((e1 * 16 + e2) * 16 + e3) * 16 + e4
                      if 0xDC00 ≤ low && low ≤ 0xDFFF then
                        let combined := 0x10000 + (code - 0xD800) * 0x400 + (low - 0xDC00)
                        match parseStringBody fuel rest4 with
                        | some (cs, r) => some (Char.ofNat combined :: cs, r)
                        | none => none
                      else
                        match parseStringBody fuel rest3 with
                        | some (cs, r) => some ('\uFFFD' :: cs, r)
                        | none => none
                    | _, _, _, _ =>
                      match parseStringBody fuel rest3 with
                      | some (cs, r) => some ('\uFFFD' :: cs, r)
                      | none => none
                  | _ =>
                    match parseStringBody fuel rest3 with
                    | some (cs, r) => some ('\uFFFD' :: cs, r)
                    | none => none
                else if 0xDC00 ≤ code && code ≤ 0xDFFF then
                  match parseStringBody fuel rest3 with
                  | some (cs, r) => some ('\uFFFD' :: cs, r)
                  | none => none
                else
                  match parseStringBody fuel rest3 with
                  | some (cs, r) => some (Char.ofNat code :: cs, r)
                  | none => none
              | _, _, _, _ => none
            | _ => none
          else none
    else if c.toNat < 0x20 then none
    else
      match parseStringBody fuel rest with
      | some (cs, r) => some (c :: cs, r)
      | none => none

/-- A JSON number literal per the strict JSON grammar (no leading zeros, a dot
needs following digits, an exponent marker needs digits). -/
def parseNumberJSON (cs : List Char) : Option (ℚ × List Char) :=
  let signAndRest : ℚ × List Char :=
    match cs with
    | '-' :: rest => (-1, rest)
    | _ => (1, cs)
  let sgn := signAndRest.1
  let cs1 := signAndRest.2
  let intPart := cs1.takeWhile Char.isDigit
  if intPart.isEmpty then none
  else if intPart.length > 1 && intPart.head? = some '0' then none
  else
    let rest1 := cs1.drop intPart.length
    let fracAndRest : List Char × List Char :=
      match rest1 with
      | '.' :: r => (r.takeWhile Char.isDigit, r.drop (r.takeWhile Char.isDigit).length)
      | _ => ([], rest1)
    let fracPart := fracAndRest.1
    let rest2 := fracAndRest.2
    let dotNoDigit : Bool :=
      match rest1 with
      | '.' :: _ => fracPart.isEmpty
      | _ => false
    if dotNoDigit then none
    else
      let base : ℚ := sgn * ((digitsToNat intPart : ℚ) +
        (digitsToNat fracPart : ℚ) / ((10 : ℚ) ^ fracPart.length))
      match rest2 with
      | 'e' :: r => parseExponent base r
      | 'E' :: r => parseExponent base r
      | _ => some (base, rest2)
where
  parseExponent (base : ℚ) (r : List Char) : Option (ℚ × List Char) :=
    let esignAndRest : ℤ × List Char :=
      match r with
      | '+' :: rr => (1, rr)
      | '-' :: rr => (-1, rr)
      | _ => (1, r)
    let eds := esignAndRest.2.takeWhile Char.isDigit
    if eds.isEmpty then none
    else some (base * (10 : ℚ) ^ (esignAndRest.1 * (digitsToNat eds : ℤ)),
      esignAndRest.2.drop eds.length)

mutual

/-- One JSON value, fuel-indexed (the entry point supplies ample fuel). -/
def parseValueF : Nat → List Char → Option (Json × List Char)
  | 0, _ => none
  | fuel+1, cs0 =>
    let cs := cs0.dropWhile isWsJSON
    match cs with
    | 'n' :: 'u' :: 'l' :: 'l' :: rest => some (.null, rest)
    | 't' :: 'r' :: 'u' :: 'e' :: rest => some (.bool true, rest)
    | 'f' :: 'a' :: 'l' :: 's' :: 'e' :: rest => some (.bool false, rest)
    | '"' :: rest =>
      match parseStringBody (rest.length + 1) rest with
      | some (chars, rest2) => some (.str ⟨chars⟩, rest2)
      | none => none
    | '[' :: rest =>
      match rest.dropWhile isWsJSON with
      | ']' :: rest2 => some (.arr [], rest2)
      | rest1 =>
        match parseElemsF fuel rest1 with
        | some (elems, rest2) => some (.arr elems, rest2)
        | none => none
    | '{' :: rest =>
      match rest.dropWhile isWsJSON with
      | '}' :: rest2 => some (.obj [], rest2)
      | rest1 =>
        match parseMembersF fuel rest1 with
        | some (fields, rest2) => some (.obj fields, rest2)
        | none => none
    | _ =>
      match parseNumberJSON cs with
      | some (q, rest) => some (.num q, rest)
      | none => none

/-- Comma-separated array elements up to the closing bracket (strict: a comma
must be followed by another element, so a trailing comma fails). -/
def parseElemsF : Nat → List Char → Option (List Json × List Char)
  | 0, _ => none
  | fuel+1, cs =>
    match parseValueF fuel cs with
    | some (v, rest) =>
      match rest.dropWhile isWsJSON with
      | ',' :: rest2 =>
        match parseElemsF fuel rest2 with
        | some (vs, rest3) => some (v :: vs, rest3)
        | none => none
      | ']' :: rest2 => some ([v], rest2)
      | _ => none
    | none => none

/-- Comma-separated object members up to the closing brace (strict: a comma
must be followed by another `"key": value` pair, so a trailing comma fails). -/
def parseMembersF : Nat → List Char → Option (List (String × Json) × List Char)
  | 0, _ => none
  | fuel+1, cs =>
    match cs.dropWhile isWsJSON with
    | '"' :: rest =>
      match parseStringBody (rest.length + 1) rest with
      | some (keyChars, rest1) =>
        match rest1.dropWhile isWsJSON with
        | ':' :: rest2 =>
          match parseValueF fuel rest2 with
          | some (v, rest3) =>
            match rest3.dropWhile isWsJSON with
            | ',' :: rest4 =>
              match parseMembersF fuel rest4 with
              | some (fields, rest5) => some ((⟨keyChars⟩, v) :: fields, rest5)
              | none => none
            | '}' :: rest4 => some ([(⟨keyChars⟩, v)], rest4)
            | _ => none
          | none => none
        | _ => none
      | none => none
    | _ => none

end

/-- JavaScript's `JSON.parse` over a character list: one value, then only
whitespace may remain. -/
def jsonParseL (cs : List Char) : Option Json :=
  match parseValueF (2 * cs.length + 4) cs with
  | some (v, rest) => if (rest.dropWhile isWsJSON).isEmpty then some v else none
  | none => none

/-- `text.match(/\x7b[\s\S]*\x7d/)`: the leftmost-greedy match runs from the
first brace-open to the last brace-close of the text; when there is no match
the route keeps the whole text (route.ts lines 152-153, 210-211, 268-269). -/
def extractJsonL (cs : List Char) : List Char :=
  if (cs.dropWhile (fun c => c != '{')).contains '}' then
    ((cs.dropWhile (fun c => c != '{')).reverse.dropWhile (fun c => c != '}')).reverse
  else cs

/-- The literal part of the fence regexps. -/
def fenceJson : List Char := "```json".data

/-- The literal part of the plain fence regexp. -/
def fencePlain : List Char := "```".data

/-- One global `replace(pat + whitespace*, '')` pass for a literal pattern
followed by greedy `\s*`, scanning left to right as the regexp engine does. -/
def stripPatWs (pat : List Char) : Nat → List Char → List Char
  | 0, cs => cs
  | _, [] => []
  | fuel+1, c :: rest =>
    if pat.isPrefixOf (c :: rest) then
      stripPatWs pat fuel (((c :: rest).drop pat.length).dropWhile isWsJS)
    else c :: stripPatWs pat fuel rest

/-- `replace(/,(\s*[\x7d\]])/g, '$1')`: drop a comma standing before a closing
brace or bracket with only whitespace between (route.ts line 160). -/
def stripTrailingCommas : Nat → List Char → List Char
  | 0, cs => cs
  | _, [] => []
  | fuel+1, c :: rest =>
    if c = ',' then
      let ws := rest.takeWhile isWsJS
      match rest.drop ws.length with
      | b :: rest2 =>
        if b = '}' || b = ']' then ws ++ b :: stripTrailingCommas fuel rest2
        else ',' :: stripTrailingCommas fuel rest
      | [] => ',' :: stripTrailingCommas fuel rest
    else c :: stripTrailingCommas fuel rest

/-- Lines 157-160 of the route: remove the markdown fence markers, then repair
trailing commas.  Only the Generation stage applies this sanitization. -/
def sanitizeGen (cs : List Char) : List Char :=
  let s1 := stripPatWs fenceJson (cs.length + 1) cs
  let s2 := stripPatWs fencePlain (s1.length + 1) s1
  stripTrailingCommas (s2.length + 1) s2

/-- Lines 149-174: extract, sanitize, `JSON.parse`, then demand a non-empty
`samples` array.  The error string is the thrown `parseError.message` (for a
`JSON.parse` failure the V8 SyntaxError text is not modelled further). -/
def genParseCore (t : String) : Except String (List Json) :=
  match jsonParseL (sanitizeGen (extractJsonL t.data)) with
  | none => .error ("SyntaxError: Unexpected token in JSON")
  | some v =>
    match jsGetField v ("samples") with
    | .error e => .error e
    | .ok fieldOpt =>
      match fieldOpt with
      | some (.arr []) => .error ("AI 返回的參考文章數量為 0")
      | some (.arr xs) => .ok xs
      | _ => .error ("AI 返回的參考文章格式錯誤：缺少 samples 陣列")

/-- Lines 208-221: extract and `JSON.parse` the ranker text — no sanitization —
then demand a `rankedIds` array (emptiness is not checked). -/
def rankParseCore (t : String) : Except String (List Json) :=
  match jsonParseL (extractJsonL t.data) with
  | none => .error ("SyntaxError: Unexpected token in JSON")
  | some v =>
    match jsGetField v ("rankedIds") with
    | .error e => .error e
    | .ok fieldOpt =>
      match fieldOpt with
      | some (.arr xs) => .ok xs
      | _ => .error ("AI 返回的排序結果格式錯誤")

/-- Lines 265-280: extract and `JSON.parse` the insertion text — no
sanitization — demand a numeric `rank`, and default `reasoning` with `|| ''`.
The `reasoning.substring(0, 50)` call in the success log throws inside the same
try block when `reasoning` is a truthy non-string, so that case is also a parse
failure. -/
def insParseCore (t : String) : Except String (ℚ × String) :=
  match jsonParseL (extractJsonL t.data) with
  | none => .error ("SyntaxError: Unexpected token in JSON")
  | some v =>
    match jsGetField v ("rank") with
    | .error e => .error e
    | .ok rankOpt =>
      match rankOpt with
      | some (.num q) =>
        match jsGetField v ("reasoning") with
        | .error e => .error e
        | .ok reasonOpt =>
          let reasonJ : Json :=
            match reasonOpt with
            | some rv => if truthy rv then rv else .str ""
            | none => .str ""
          match reasonJ with
          | .str s => .ok (q, s)
          | _ => .error ("TypeError: reasoning.substring is not a function")
      | _ => .error ("AI 返回的排名結果格式錯誤")

/-- Result of one Text Judge call (`generateText`): the judge is an oracle, so
the pipeline below is a function of the completion it would return. -/
structure JudgeResult where
  success : Bool
  text : Option String
  error : Option String

/-- `x || fallback` on an optional string. -/
def jsOrStr (o : Option String) (fallback : String) : String :=
  match o with
  | some e => if e = "" then fallback else e
  | none => fallback

/-- The `if (!result.success || !result.text)` guard shared by the three remote
stages; on failure the route answers 500 with `result.error || fallback`. -/
def checkJudge (jr : JudgeResult) (fallback : String) : Except String String :=
  match jr.success, jr.text with
  | true, some t => if t = "" then .error (jsOrStr jr.error fallback) else .ok t
  | _, _ => .error (jsOrStr jr.error fallback)

/-- Step 1 (generation): judge guard plus parsing, with the route's wrapped
error message; errors carry the HTTP status. -/
def genStage (g : JudgeResult) : Except (String × Nat) (List Json) :=
  match checkJudge g ("無法生成參考文章") with
  | .error m => .error (m, 500)
  | .ok t =>
    match genParseCore t with
    | .error m =>
      .error ("AI 返回的參考文章格式錯誤，無法解析。錯誤：" ++ m ++
        "。請重試或減少 sampleCount 參數（建議使用 20-30）", 500)
    | .ok samples => .ok samples

/-- Step 2 (ranking): judge guard plus parsing. -/
def rankStage (r : JudgeResult) : Except (String × Nat) (List Json) :=
  match checkJudge r ("無法排序參考文章") with
  | .error m => .error (m, 500)
  | .ok t =>
    match rankParseCore t with
    | .error _ => .error ("AI 返回的排序結果格式錯誤，無法解析", 500)
    | .ok ids => .ok ids

/-- Step 3 (insertion): judge guard plus parsing. -/
def insStage (i : JudgeResult) : Except (String × Nat) (ℚ × String) :=
  match checkJudge i ("無法確定作文排名") with
  | .error m => .error (m, 500)
  | .ok t =>
    match insParseCore t with
    | .error _ => .error ("AI 返回的排名結果格式錯誤，無法解析", 500)
    | .ok res => .ok res

/-- `${v}` string interpolation: exact for the integers, strings and
primitives that occur here; the decimal rendering of non-integer doubles and
the array case are rough stand-ins (no theorem depends on them). -/
def jsDisplay : Json → String
  | .null => "null"
  | .bool b => if b then "true" else "false"
  | .num q => if q.den = 1 then toString q.num else toString q
  | .str s => s
  | .arr _ => ""
  | .obj _ => "[object Object]"

/-- `samples.find((s) => s.id === id)` — first match wins; a TypeError thrown
while reading `s.id` off a null element propagates. -/
def findSample (samples : List Json) (id : Json) : Except String (Option Json) :=
  match samples with
  | [] => .ok none
  | s :: rest =>
    match jsGetField s ("id") with
    | .error e => .error e
    | .ok sid =>
      if jsStrictEq sid (some id) then .ok (some s)
      else findSample rest id

/-- One entry of the ranked corpus the route builds (lines 234-244). -/
structure RankedSampleEntry where
  id : Option Json
  content : Option Json
  rank : Nat

/-- `rankedIds.map((id, index) => ...)`: look each id up among the generated
samples, throwing on an unknown id; ranks start at 1. -/
def buildRanked (samples : List Json) : List Json → Nat → Except String (List RankedSampleEntry)
  | [], _ => .ok []
  | id :: rest, index =>
    match findSample samples id with
    | .error e => .error e
    | .ok none => .error ("找不到 ID 為 " ++ jsDisplay id ++ " 的參考文章")
    | .ok (some sample) =>
      match buildRanked samples rest (index + 1) with
      | .error e => .error e
      | .ok tailEntries =>
        .ok ({ id := jsGet sample ("id"), content := jsGet sample ("content"),
               rank := index + 1 } :: tailEntries)

/-- Lines 296-302 with line 300's `Math.max(1, Math.min(sampleCount, rank))`:
clamp an out-of-range rank into `[1, sampleCount]`. -/
def clampRank (rank n : ℚ) : ℚ :=
  if rank < 1 || rank > n then max 1 (min n rank) else rank

/-- Line 305: `Math.round((rank / sampleCount) * 25)`. -/
def scoreValue (rank n : ℚ) : ℤ := jsRound (rank / n * 25)

/-- Line 309: `Math.round((rank / sampleCount) * 100)`. -/
def percentileValue (rank n : ℚ) : ℤ := jsRound (rank / n * 100)

/-- The success payload the route returns (lines 318-328). -/
structure ScoreResponseData where
  score : String
  rank : Option ℚ
  totalSamples : Json
  percentile : Option ℤ
  reasoning : String
  method : String
  generatedSamples : Nat

/-- A route response: the success envelope or `(message, HTTP status)`. -/
inductive ApiResponse where
  | ok (d : ScoreResponseData)
  | err (message : String) (status : Nat)

/-- `${x}` for a Math.round result; `none` is NaN. -/
def fmtRound : Option ℤ → String
  | some z => toString z
  | none => "NaN"

/-- Step 4 of the route (lines 295-328): clamp, score, percentile and response
data.  `none` rationals model NaN, which can arise only when a non-numeric
sampleCount slipped through validation; division by zero cannot occur because
validation enforced a numeric sampleCount ≥ 10. -/
def mkScoreResult (rank : ℚ) (sampleCount : Json) (generated : Nat)
    (reasoning : String) : ScoreResponseData :=
  let scq := toNumber sampleCount
  let newRank : Option ℚ :=
    match scq with
    | some n => some (clampRank rank n)
    | none => if rank < 1 then none else some rank
  let sv : Option ℤ :=
    match newRank, scq with
    | some r, some n => if n = 0 then none else some (scoreValue r n)
    | _, _ => none
  let pc : Option ℤ :=
    match newRank, scq with
    | some r, some n => if n = 0 then none else some (percentileValue r n)
    | _, _ => none
  { score := fmtRound sv ++ "/25"
    rank := newRank
    totalSamples := sampleCount
    percentile := pc
    reasoning := reasoning
    method := "rank-then-score"
    generatedSamples := generated }

/-- String.join of a list with a separator (`Array.prototype.join`). -/
def joinSep (sep : String) : List String → String
  | [] => ""
  | [x] => x
  | x :: xs => x ++ sep ++ joinSep sep xs

/-- request-validator.ts lines 70-72: a required field is missing when it is
absent, falsy, or a string whose trim is empty. -/
def fieldMissing (data : Json) (f : String) : Bool :=
  match jsGet data f with
  | none => true
  | some v =>
    !truthy v ||
      (match v with
       | .str s => jsTrimStr s = ""
       | _ => false)

/-- request-validator.ts `validateJsonFields`: `none` means valid, otherwise
the (message, HTTP status) of the 400 response. -/
def validateJsonFields (data : Json) (requiredFields : List String) :
    Option (String × Nat) :=
  if !truthy data then some ("请求体必须为 JSON 格式", 400)
  else
    let missingFields := requiredFields.filter (fun f => fieldMissing data f)
    if missingFields.isEmpty then none
    else some ("缺少必需字段: " ++ joinSep (", ") missingFields, 400)

/-- `data.f.trim()` — throws a TypeError when the field is not a string, which
the route's outer catch turns into a 500 response. -/
def trimField (data : Json) (f : String) : Except (String × Nat) String :=
  match jsGet data f with
  | some (.str s) => .ok (jsTrimStr s)
  | _ => .error ("TypeError: trim is not a function", 500)

/-- Line 115: `const sampleCount = data.sampleCount || 50` — a falsy field
(absent, 0, empty string, null, false) is replaced by the default 50. -/
def defaultedSampleCount (data : Json) : Json :=
  match jsGet data ("sampleCount") with
  | some v => if truthy v then v else .num 50
  | none => .num 50

/-- Lines 104-123 of the route: everything before the first judge call. -/
def validateStage (data : Json) :
    Except (String × Nat) (String × String × String × Json) :=
  match validateJsonFields data (["topic", "content", "rubric"]) with
  | some (m, st) => .error (m, st)
  | none =>
    match trimField data ("topic") with
    | .error e => .error e
    | .ok topic =>
      match trimField data ("content") with
      | .error e => .error e
      | .ok content =>
        match trimField data ("rubric") with
        | .error e => .error e
        | .ok rubric =>
          let sampleCount := defaultedSampleCount data
          if topic = "" || content = "" || rubric = "" then
            .error ("topic、content 或 rubric 內容為空", 400)
          else if jsLtNum sampleCount 10 || jsGtNum sampleCount 100 then
            .error ("sampleCount 必須在 10-100 之間", 400)
          else .ok (topic, content, rubric, sampleCount)

/-- The POST handler of src/app/api/score_essay/route.ts as a function of the
request body and of the three Text Judge completions it would receive, in call
order.  The second component counts how many judge calls were made before the
response was produced. -/
def POST (data : Json) (genR rankR insR : JudgeResult) : ApiResponse × Nat :=
  match validateStage data with
  | .error (m, st) => (.err m st, 0)
  | .ok (_topic, _content, _rubric, sampleCount) =>
    match genStage genR with
    | .error (m, st) => (.err m st, 1)
    | .ok samples =>
      match rankStage rankR with
      | .error (m, st) => (.err m st, 2)
      | .ok rankedIds =>
        match buildRanked samples rankedIds 0 with
        | .error m => (.err m 500, 2)
        | .ok _rankedSamples =>
          match insStage insR with
          | .error (m, st) => (.err m st, 3)
          | .ok (rank, reasoning) =>
            (.ok (mkScoreResult rank sampleCount samples.length reasoning), 3)

/-- Substring containment (`s.includes(sub)`). -/
def strContains (s sub : String) : Prop := sub.data <:+: s.data

/-- The system prompt of the insertion stage
(rank-score-prompts.ts `getInsertRankPrompt`, lines 66-89).  Note that it
hardcodes a corpus size of 50 regardless of the actual sampleCount. -/
def getInsertRankPrompt : String :=
  "你是一位資深的國文評分專家。現在有一篇實際的學生作文需要評分。\n\n" ++
  "已有 50 篇已排序的參考文章（從最差到最好）。請將這篇實際作文插入到這個排序中，確定它應該排在第幾名。\n\n" ++
  "要求：\n" ++
  "1. 根據評分標準進行比較\n" ++
  "2. 綜合考慮以下維度：\n" ++
  "   - 立意取材：主題立意、取材選擇、內容深度\n" ++
  "   - 表達與文采：文字表達、修辭運用、文筆優美度\n" ++
  "   - 組織結構：文章結構、段落安排、邏輯連貫性\n" ++
  "   - 格式及錯別字：格式規範、錯別字、標點符號使用\n" ++
  "3. 確定這篇作文的質量水平\n" ++
  "4. 給出它在 50 篇中的排名位置（1 = 最差，50 = 最好）\n" ++
  "5. 簡要說明排名理由\n\n" ++
  "請以純 JSON 格式回應，不要包含任何 Markdown 標記：\n" ++
  "\x7b\n  \"rank\": 23,\n  \"reasoning\": \"簡短說明排名理由（1-2 句話）\"\n\x7d\n\n" ++
  "註：rank 值為 1 代表比所有參考文章都差，rank 值為 50 代表比所有參考文章都好。"

/-- The element type of `getInsertRankUserPrompt`'s `rankedSamples` argument
(`Array<\x7bid: number; content: string; rank: number\x7d>`); the numbers are
modelled as integers, the only values the route ever passes. -/
structure PromptSample where
  id : ℤ
  content : String
  rank : ℤ

/-- One listed reference essay of the insertion user prompt (rank-score-
prompts.ts line 149): rank label, id label, then the essay text. -/
def insertRankBlock (s : PromptSample) : String :=
  "[排名: " ++ toString s.rank ++ "] [ID: " ++ toString s.id ++ "]\n" ++ s.content

/-- The `samplesText` local of `getInsertRankUserPrompt` (lines 148-150):
the ranked essays joined by a separator line. -/
def insertRankSamplesText (rankedSamples : List PromptSample) : String :=
  joinSep ("\n\n---\n\n") (rankedSamples.map insertRankBlock)

/-- The user prompt of the insertion stage
(rank-score-prompts.ts `getInsertRankUserPrompt`, lines 142-167). -/
def getInsertRankUserPrompt (topic rubric content : String)
    (rankedSamples : List PromptSample) : String :=
  "請將以下實際作文插入到已排序的參考文章中。\n\n作文題目：" ++ topic ++
  "\n\n評分標準：\n" ++ rubric ++ "\n\n實際作文內容：\n" ++ content ++
  "\n\n---\n\n已排序的參考文章（共 " ++ toString rankedSamples.length ++
  " 篇，從最差到最好）：\n\n" ++ insertRankSamplesText rankedSamples

instance (s sub : String) : Decidable (strContains s sub) :=
  inferInstanceAs (Decidable (sub.data <:+: s.data))

/-- Did the stage fail? -/
def exceptIsError {ε α : Type} : Except ε α → Bool
  | .error _ => true
  | .ok _ => false

/-- The HTTP status of a response: `none` for the success envelope. -/
def respStatus : ApiResponse → Option Nat
  | .ok _ => none
  | .err _ st => some st

/-- The returned rank is present (not NaN) and lies within `[1, n]`. -/
def rankWithin (o : Option ℚ) (n : ℚ) : Prop :=
  match o with
  | some rr => 1 ≤ rr ∧ rr ≤ n
  | none => False

/-- The response's score string is the Score Mapper output for its own rank
over denominator `n`. -/
def scoreMatches (d : ScoreResponseData) (n : ℚ) : Prop :=
  match d.rank with
  | some rr => d.score = toString (scoreValue rr n) ++ "/25"
  | none => False

/-- Does the parsed judge output carry a non-empty `samples` array? -/
def hasNonemptySamples (v : Json) : Bool :=
  match jsGetField v ("samples") with
  | .ok (some (.arr (_ :: _))) => true
  | _ => false

/-! Concrete fixtures: a request and judge completions used by the witnesses
and counterexamples below. -/

/-- A successful judge completion with the given text. -/
def jrOf (t : String) : JudgeResult := { success := true, text := some t, error := none }

/-- A well-formed request with `sampleCount = 10`. -/
def sampleRequest : Json :=
  .obj [("topic", .str "t"), ("content", .str "c"), ("rubric", .str "r"),
        ("sampleCount", .num 10)]

/-- The same request with `sampleCount = 0` (falsy). -/
def reqSampleCountZero : Json :=
  .obj [("topic", .str "t"), ("content", .str "c"), ("rubric", .str "r"),
        ("sampleCount", .num 0)]

/-- A generator completion with two samples, ids 1 and 2. -/
def genJudgeOk : JudgeResult :=
  jrOf ("\x7b\"samples\":[\x7b\"id\":1,\"targetScore\":2,\"content\":\"a\"\x7d,\x7b\"id\":2,\"targetScore\":20,\"content\":\"b\"\x7d]\x7d")

/-- The two samples of `genJudgeOk`, as the route parses them. -/
def genOkSamples : List Json :=
  [.obj [("id", .num 1), ("targetScore", .num 2), ("content", .str "a")],
   .obj [("id", .num 2), ("targetScore", .num 20), ("content", .str "b")]]

/-- A generator completion whose two samples share the id 1. -/
def genJudgeDup : JudgeResult :=
  jrOf ("\x7b\"samples\":[\x7b\"id\":1,\"targetScore\":2,\"content\":\"a\"\x7d,\x7b\"id\":1,\"targetScore\":20,\"content\":\"b\"\x7d]\x7d")

/-- The two duplicate-id samples of `genJudgeDup`. -/
def genDupSamples : List Json :=
  [.obj [("id", .num 1), ("targetScore", .num 2), ("content", .str "a")],
   .obj [("id", .num 1), ("targetScore", .num 20), ("content", .str "b")]]

/-- A generator completion with a trailing comma before the closing bracket. -/
def genTrailingText : String :=
  "\x7b\"samples\":[\x7b\"id\":1,\"targetScore\":5,\"content\":\"x\"\x7d,]\x7d"

/-- A ranker completion listing both sample ids, worst to best. -/
def rankJudgeOk : JudgeResult := jrOf ("\x7b\"rankedIds\":[1,2]\x7d")

/-- A ranker completion naming id 3, which no generated sample carries. -/
def rankJudgeUnknown : JudgeResult := jrOf ("\x7b\"rankedIds\":[1,3]\x7d")

/-- A ranker completion using id 1 twice and omitting id 2. -/
def rankJudgeDup : JudgeResult := jrOf ("\x7b\"rankedIds\":[1,1]\x7d")

/-- A ranker completion with a trailing comma before the closing brace. -/
def rankTrailingText : String := "\x7b\"rankedIds\":[1,2],\x7d"

/-- The judge result carrying `rankTrailingText`. -/
def rankJudgeTrailing : JudgeResult := jrOf rankTrailingText

/-- An insertion completion with rank 2. -/
def insJudgeOk : JudgeResult := jrOf ("\x7b\"rank\":2,\"reasoning\":\"ok\"\x7d")

/-- An insertion completion with the out-of-range rank 999. -/
def insJudge999 : JudgeResult := jrOf ("\x7b\"rank\":999,\"reasoning\":\"ok\"\x7d")

/-- An insertion completion with a trailing comma before the closing brace. -/
def insJudgeTrailing : JudgeResult := jrOf ("\x7b\"rank\":3,\"reasoning\":\"x\",\x7d")

/-- The response of the `sampleRequest`/`genJudgeOk`/`rankJudgeOk`/`insJudgeOk`
run: rank 2 of 10 although only 2 samples were generated. -/
def insOkResponse : ScoreResponseData :=
  { score := "5/25", rank := some 2, totalSamples := .num 10,
    percentile := some 20, reasoning := "ok", method := "rank-then-score",
    generatedSamples := 2 }

/-- The ranked corpus the route builds from `genOkSamples` and ids `[1, 2]`. -/
def buildRankedEntriesFix : List RankedSampleEntry :=
  [{ id := some (.num 1), content := some (.str "a"), rank := 1 },
   { id := some (.num 2), content := some (.str "b"), rank := 2 }]

/-! Theorems. -/

set_option maxRecDepth 10000

/-- `jsRound` is the usual floor of `q + 1/2`. -/
theorem jsRound_eq_floor (q : ℚ) : jsRound q = ⌊q + 1/2⌋ := by
  rw [jsRound, Rat.floor_def']
  exact Rat.floor_def.symm

/-- C2: the Score Mapper computes `round(rank / N * 25)` and
`round(rank / N * 100)`; for N = 50, rank 25 gives "13/25" and percentile 50,
rank 1 gives "1/25" and percentile 2, rank 50 gives "25/25" and percentile
100. -/
theorem C2_score_mapper_concrete_cases :
    scoreValue 25 50 = 13 ∧ percentileValue 25 50 = 50 ∧
    scoreValue 1 50 = 1 ∧ percentileValue 1 50 = 2 ∧
    scoreValue 50 50 = 25 ∧ percentileValue 50 50 = 100 := by
  with_unfolding_all decide

/-- C3: the Score Mapper is a pure deterministic function of `(rank, N)` —
identical arguments give identical output — and for every fixed positive `N`
both the score numerator and the percentile are monotonically non-decreasing
in `rank`. -/
theorem C3_score_mapper_deterministic_monotone :
    (∀ rank n : ℚ,
      (scoreValue rank n, percentileValue rank n) =
        (scoreValue rank n, percentileValue rank n)) ∧
    (∀ n rank₁ rank₂ : ℚ, 0 < n → rank₁ ≤ rank₂ →
      scoreValue rank₁ n ≤ scoreValue rank₂ n ∧
        percentileValue rank₁ n ≤ percentileValue rank₂ n) := by
  refine ⟨fun _ _ => rfl, fun n r₁ r₂ hn h => ⟨?_, ?_⟩⟩ <;>
  · first
    | (unfold scoreValue; rw [jsRound_eq_floor, jsRound_eq_floor]
       apply Int.floor_le_floor
       gcongr)
    | (unfold percentileValue; rw [jsRound_eq_floor, jsRound_eq_floor]
       apply Int.floor_le_floor
       gcongr)

/-- Witness for C3 at `N = 50`, ranks 3 ≤ 7. -/
theorem C3_witness :
    (0 : ℚ) < 50 ∧ (3 : ℚ) ≤ 7 ∧
    scoreValue 3 50 ≤ scoreValue 7 50 ∧
    percentileValue 3 50 ≤ percentileValue 7 50 :=
  ⟨by norm_num, by norm_num,
   (C3_score_mapper_deterministic_monotone.2 50 3 7 (by norm_num) (by norm_num)).1,
   (C3_score_mapper_deterministic_monotone.2 50 3 7 (by norm_num) (by norm_num)).2⟩

/-- Clamping keeps a rank inside `[1, n]` whenever `1 ≤ n`. -/
theorem clampRank_bounds {r n : ℚ} (hn : 1 ≤ n) :
    1 ≤ clampRank r n ∧ clampRank r n ≤ n := by
  unfold clampRank
  split
  · exact ⟨le_max_left 1 _, max_le hn (min_le_left _ _)⟩
  · rename_i h
    simp only [Bool.or_eq_true, decide_eq_true_eq, not_or] at h
    exact ⟨not_lt.mp h.1, not_lt.mp h.2⟩

/-- A successful validation returns the defaulted sampleCount, which failed
neither bound check. -/
theorem validateStage_ok {data : Json} {t c rb : String} {sc : Json}
    (h : validateStage data = .ok (t, c, rb, sc)) :
    sc = defaultedSampleCount data ∧ jsLtNum sc 10 = false ∧ jsGtNum sc 100 = false := by
  unfold validateStage at h
  rcases hv : validateJsonFields data (["topic", "content", "rubric"]) with _ | ⟨m, st⟩ <;>
    rw [hv] at h <;> simp at h
  rcases ht : trimField data ("topic") with e | t' <;> rw [ht] at h <;> simp at h
  rcases hc : trimField data ("content") with e | c' <;> rw [hc] at h <;> simp at h
  rcases hr : trimField data ("rubric") with e | rb' <;> rw [hr] at h <;> simp at h
  split_ifs at h with h1 h2
  simp at h
  simp only [not_or, Bool.not_eq_true] at h2
  exact ⟨h.2.2.2.symm, h.2.2.2 ▸ h2.1, h.2.2.2 ▸ h2.2⟩

/-- A successful route run decomposes into five successful stages, three judge
calls, and the final score computation. -/
theorem POST_ok_elim {data : Json} {g r i : JudgeResult} {d : ScoreResponseData}
    {calls : Nat} (h : POST data g r i = (.ok d, calls)) :
    ∃ t c rb sc samples rankedIds entries rank reasoning,
      validateStage data = .ok (t, c, rb, sc) ∧
      genStage g = .ok samples ∧
      rankStage r = .ok rankedIds ∧
      buildRanked samples rankedIds 0 = .ok entries ∧
      insStage i = .ok (rank, reasoning) ∧
      d = mkScoreResult rank sc samples.length reasoning ∧
      calls = 3 := by
  unfold POST at h
  rcases hval : validateStage data with ⟨m, st⟩ | ⟨t, c, rb, sc⟩ <;> rw [hval] at h <;>
    simp at h
  rcases hgen : genStage g with ⟨m, st⟩ | samples <;> rw [hgen] at h <;> simp at h
  rcases hrank : rankStage r with ⟨m, st⟩ | rankedIds <;> rw [hrank] at h <;> simp at h
  rcases hbuild : buildRanked samples rankedIds 0 with m | entries <;> rw [hbuild] at h <;>
    simp at h
  rcases hins : insStage i with ⟨m, st⟩ | ⟨rank, reasoning⟩ <;> rw [hins] at h <;> simp at h
  exact ⟨t, c, rb, sc, samples, rankedIds, entries, rank, reasoning,
    rfl, rfl, rfl, hbuild, rfl, h.1.symm, h.2.symm⟩

/-- C1: for every insertion verdict with a numeric rank, a successful response
carries a rank clamped into `[1, sampleCount]`; with sampleCount 50, a raw
rank of 0 clamps to 1 and a raw rank of 999 clamps to 50. -/
theorem C1_insertion_rank_clamped :
    (∀ (data : Json) (g r i : JudgeResult) (d : ScoreResponseData) (calls : Nat) (q : ℚ),
        POST data g r i = (.ok d, calls) →
        defaultedSampleCount data = .num q →
        rankWithin d.rank q) ∧
    clampRank 0 50 = 1 ∧ clampRank 999 50 = 50 := by
  refine ⟨?_, by with_unfolding_all decide, by with_unfolding_all decide⟩
  intro data g r i d calls q hpost hq
  obtain ⟨t, c, rb, sc, samples, rankedIds, entries, rank, reasoning,
    hval, hgen, hrank, hbuild, hins, hd, hcalls⟩ := POST_ok_elim hpost
  obtain ⟨hsc, hlt, hgt⟩ := validateStage_ok hval
  have hscq : sc = Json.num q := hsc.trans hq
  subst hscq
  subst hd
  have h10 : (10 : ℚ) ≤ q := by
    simp only [jsLtNum, toNumber, decide_eq_false_iff_not] at hlt
    exact not_lt.mp hlt
  have h1q : (1 : ℚ) ≤ q := le_trans (by norm_num) h10
  have hr : (mkScoreResult rank (.num q) samples.length reasoning).rank =
      some (clampRank rank q) := rfl
  simp only [hr, rankWithin]
  exact clampRank_bounds h1q

/-- Witness for C1: the concrete run with sampleCount 10 and raw rank 999
yields a response rank inside `[1, 10]`. -/
theorem C1_witness :
    rankWithin ({ score := "25/25", rank := some 10, totalSamples := .num 10,
                  percentile := some 100, reasoning := "ok",
                  method := "rank-then-score",
                  generatedSamples := 2 } : ScoreResponseData).rank 10 :=
  C1_insertion_rank_clamped.1 sampleRequest genJudgeOk rankJudgeOk insJudge999 _ 3 10
    (by with_unfolding_all rfl) (by with_unfolding_all rfl)

/-- C4 (amended): a request with a missing or empty topic, content or rubric,
or with a truthy (non-zero) numeric sampleCount outside `[10, 100]`, is
rejected with a 400 validation error before any Text Judge call; a falsy
sampleCount such as 0 is instead replaced by the default 50. -/
theorem C4_validation_rejects_before_judge :
    (∀ (data : Json) (g r i : JudgeResult),
        truthy data = true →
        (fieldMissing data ("topic") = true ∨ fieldMissing data ("content") = true ∨
          fieldMissing data ("rubric") = true) →
        (POST data g r i).2 = 0 ∧ respStatus (POST data g r i).1 = some 400) ∧
    (∀ (t c rb : String) (q : ℚ) (g r i : JudgeResult),
        jsTrimStr t ≠ "" → jsTrimStr c ≠ "" → jsTrimStr rb ≠ "" →
        q ≠ 0 → (q < 10 ∨ q > 100) →
        POST (Json.obj [("topic", .str t), ("content", .str c), ("rubric", .str rb),
            ("sampleCount", .num q)]) g r i =
          (.err ("sampleCount 必須在 10-100 之間") 400, 0)) := by
  constructor
  · intro data g r i hdata hmiss
    have hne : (["topic", "content", "rubric"].filter
        (fun f => fieldMissing data f)) ≠ [] := by
      rcases hmiss with h | h | h
      · exact List.ne_nil_of_mem (List.mem_filter.mpr ⟨by simp, h⟩)
      · exact List.ne_nil_of_mem (List.mem_filter.mpr ⟨by simp, h⟩)
      · exact List.ne_nil_of_mem (List.mem_filter.mpr ⟨by simp, h⟩)
    have hv : validateJsonFields data (["topic", "content", "rubric"]) =
        some ("缺少必需字段: " ++ joinSep (", ")
          (["topic", "content", "rubric"].filter (fun f => fieldMissing data f)), 400) := by
      unfold validateJsonFields
      simp [hdata, hne]
    unfold POST validateStage
    rw [hv]
    simp [respStatus]
  · intro t c rb q g r i ht hc hrb hq hrange
    have ht' : t ≠ "" := fun h => ht (by rw [h]; rfl)
    have hc' : c ≠ "" := fun h => hc (by rw [h]; rfl)
    have hrb' : rb ≠ "" := fun h => hrb (by rw [h]; rfl)
    have hcond : (decide (q < 10) || decide (q > 100)) = true := by
      rcases hrange with h | h <;> simp [h]
    unfold POST validateStage validateJsonFields
    simp [fieldMissing, jsGet, lookupLast, defaultedSampleCount, trimField, truthy,
      jsLtNum, jsGtNum, toNumber, ht', hc', hrb', hq, ht, hc, hrb, hcond]

/-- Counterexample for C4: `sampleCount = 0` lies outside `[10, 100]`, yet the
request is not rejected — the falsy value is silently defaulted to 50 and all
three judge calls happen. -/
theorem C4_counterexample :
    jsGet reqSampleCountZero ("sampleCount") = some (.num 0) ∧ (0 : ℚ) < 10 ∧
    (POST reqSampleCountZero genJudgeOk rankJudgeOk insJudgeOk).2 = 3 ∧
    respStatus (POST reqSampleCountZero genJudgeOk rankJudgeOk insJudgeOk).1 = none :=
  ⟨by with_unfolding_all rfl, by norm_num, by with_unfolding_all rfl,
   by with_unfolding_all rfl⟩

/-- Witness for C4: a missing topic and a sampleCount of 5 are each rejected
with status 400 and zero judge calls. -/
theorem C4_witness :
    ((POST (Json.obj [("content", .str "c"), ("rubric", .str "r")])
        genJudgeOk rankJudgeOk insJudgeOk).2 = 0 ∧
      respStatus ((POST (Json.obj [("content", .str "c"), ("rubric", .str "r")])
        genJudgeOk rankJudgeOk insJudgeOk)).1 = some 400) ∧
    POST (Json.obj [("topic", .str "t"), ("content", .str "c"), ("rubric", .str "r"),
        ("sampleCount", .num 5)]) genJudgeOk rankJudgeOk insJudgeOk =
      (.err ("sampleCount 必須在 10-100 之間") 400, 0) :=
  ⟨C4_validation_rejects_before_judge.1 _ genJudgeOk rankJudgeOk insJudgeOk
      (by rfl) (Or.inl (by with_unfolding_all rfl)),
   C4_validation_rejects_before_judge.2 "t" "c" "r" 5 genJudgeOk rankJudgeOk insJudgeOk
      (by decide) (by decide) (by decide) (by norm_num) (Or.inl (by norm_num))⟩

/-- C5 (amended): a successful Generation stage guarantees only that the
parsed samples array is non-empty; neither the requested count `N` nor id
uniqueness is enforced. -/
theorem C5_generation_only_guarantees_nonempty :
    ∀ (g : JudgeResult) (samples : List Json),
      genStage g = .ok samples → samples ≠ [] := by
  intro g samples h
  unfold genStage at h
  rcases hcj : checkJudge g ("無法生成參考文章") with m | t <;> rw [hcj] at h <;> simp at h
  rcases hp : genParseCore t with m | xs <;> rw [hp] at h <;> simp at h
  subst h
  unfold genParseCore at hp
  rcases hj : jsonParseL (sanitizeGen (extractJsonL t.data)) with _ | v <;>
    rw [hj] at hp <;> simp at hp
  rcases hf : jsGetField v ("samples") with e | fo <;> rw [hf] at hp <;> simp at hp
  rcases fo with _ | vv
  · simp at hp
  rcases vv with _ | b | qq | ss | elems | fields
  · simp at hp
  · simp at hp
  · simp at hp
  · simp at hp
  · rcases elems with _ | ⟨x, rest⟩
    · simp at hp
    · simp only [Except.ok.injEq] at hp
      rw [← hp]
      exact List.cons_ne_nil x rest
  · simp at hp

/-- Counterexample for C5: with `sampleCount = 10`, a generator completion
whose two samples share id 1 still parses successfully, and the whole
pipeline proceeds through all three judge calls to a success response. -/
theorem C5_counterexample :
    genStage genJudgeDup = .ok genDupSamples ∧
    genDupSamples.length = 2 ∧ (2 : Nat) ≠ 10 ∧
    genDupSamples.map (fun s => jsGet s ("id")) = [some (.num 1), some (.num 1)] ∧
    (POST sampleRequest genJudgeDup rankJudgeDup insJudgeOk).2 = 3 ∧
    respStatus (POST sampleRequest genJudgeDup rankJudgeDup insJudgeOk).1 = none :=
  ⟨by with_unfolding_all rfl, by rfl, by decide, by with_unfolding_all rfl,
   by with_unfolding_all rfl, by with_unfolding_all rfl⟩

/-- Witness for C5: the two-sample fixture parses and is indeed non-empty. -/
theorem C5_witness : genOkSamples ≠ [] :=
  C5_generation_only_guarantees_nonempty genJudgeOk genOkSamples
    (by with_unfolding_all rfl)

/-- A numeric sampleCount flows into the response rank and score unchanged. -/
theorem mkScoreResult_num (rank q : ℚ) (hq : q ≠ 0) (gcount : Nat) (s : String) :
    (mkScoreResult rank (.num q) gcount s).rank = some (clampRank rank q) ∧
    (mkScoreResult rank (.num q) gcount s).score =
      toString (scoreValue (clampRank rank q) q) ++ "/25" := by
  unfold mkScoreResult
  simp [toNumber, fmtRound, hq]

/-- C9: the score denominator is always the requested sampleCount — defaulted
to 50 when the field is absent or falsy — never the number of samples actually
parsed: every success response satisfies `totalSamples = sampleCount` and
`score = round(rank / sampleCount * 25)`, even in the concrete run where only
2 samples were generated against a requested 10. -/
theorem C9_denominator_is_requested_count :
    (∀ (data : Json) (g r i : JudgeResult) (d : ScoreResponseData) (calls : Nat) (q : ℚ),
        POST data g r i = (.ok d, calls) →
        defaultedSampleCount data = .num q →
        d.totalSamples = .num q ∧ scoreMatches d q) ∧
    (∀ data : Json, jsGet data ("sampleCount") = none →
        defaultedSampleCount data = .num 50) ∧
    (∀ data v : Json, jsGet data ("sampleCount") = some v → truthy v = false →
        defaultedSampleCount data = .num 50) ∧
    ((POST sampleRequest genJudgeOk rankJudgeOk insJudgeOk).1 = .ok insOkResponse ∧
      insOkResponse.generatedSamples = 2 ∧ insOkResponse.totalSamples = .num 10) := by
  refine ⟨?_, ?_, ?_, by with_unfolding_all rfl, by rfl, by rfl⟩
  · intro data g r i d calls q hpost hq
    obtain ⟨t, c, rb, sc, samples, rankedIds, entries, rank, reasoning,
      hval, hgen, hrank, hbuild, hins, hd, hcalls⟩ := POST_ok_elim hpost
    obtain ⟨hsc, hlt, hgt⟩ := validateStage_ok hval
    have hscq : sc = Json.num q := hsc.trans hq
    subst hscq
    subst hd
    have h10 : (10 : ℚ) ≤ q := by
      simp only [jsLtNum, toNumber, decide_eq_false_iff_not] at hlt
      exact not_lt.mp hlt
    have hq0 : q ≠ 0 := by positivity
    obtain ⟨hrk, hscore⟩ := mkScoreResult_num rank q hq0 samples.length reasoning
    refine ⟨rfl, ?_⟩
    unfold scoreMatches
    rw [hrk, hscore]
  · intro data h
    unfold defaultedSampleCount
    rw [h]
  · intro data v h hv
    unfold defaultedSampleCount
    rw [h]
    simp [hv]

/-- Witness for C9 at the concrete run: totalSamples is the requested 10 and
the score string matches the mapper output for the response's own rank. -/
theorem C9_witness :
    insOkResponse.totalSamples = .num 10 ∧ scoreMatches insOkResponse 10 :=
  C9_denominator_is_requested_count.1 sampleRequest genJudgeOk rankJudgeOk insJudgeOk
    insOkResponse 3 10 (by with_unfolding_all rfl) (by with_unfolding_all rfl)

/-- If some ranked id has no matching sample, building the ranked corpus
throws. -/
theorem buildRanked_error_of_unmatched {samples : List Json} :
    ∀ {ids : List Json} (k : Nat), (∃ id ∈ ids, findSample samples id = .ok none) →
      ∃ m, buildRanked samples ids k = .error m := by
  intro ids
  induction ids with
  | nil =>
    intro k h
    obtain ⟨id, hmem, _⟩ := h
    cases hmem
  | cons id0 rest ih =>
    intro k h
    rcases hf : findSample samples id0 with e | fo
    · exact ⟨e, by simp [buildRanked, hf]⟩
    · rcases fo with _ | s
      · exact ⟨"找不到 ID 為 " ++ jsDisplay id0 ++ " 的參考文章",
          by simp [buildRanked, hf]⟩
      · obtain ⟨id, hmem, hnone⟩ := h
        have hmem' : id ∈ rest := by
          rcases List.mem_cons.mp hmem with rfl | h'
          · rw [hf] at hnone
            exact absurd hnone (by simp)
          · exact h'
        obtain ⟨m, hm⟩ := ih (k + 1) ⟨id, hmem', hnone⟩
        exact ⟨m, by simp [buildRanked, hf, hm]⟩

/-- If every ranked id matches some sample — duplicates and omissions
included — building the ranked corpus succeeds. -/
theorem buildRanked_ok_of_matched {samples : List Json} :
    ∀ {ids : List Json} (k : Nat),
      (∀ id ∈ ids, ∃ s, findSample samples id = .ok (some s)) →
      ∃ entries, buildRanked samples ids k = .ok entries := by
  intro ids
  induction ids with
  | nil =>
    intro k _
    exact ⟨[], rfl⟩
  | cons id0 rest ih =>
    intro k h
    obtain ⟨s0, hs0⟩ := h id0 (List.mem_cons_self id0 rest)
    obtain ⟨es, hes⟩ := ih (k + 1) (fun id hid => h id (List.mem_cons_of_mem _ hid))
    exact ⟨{ id := jsGet s0 ("id"), content := jsGet s0 ("content"),
               rank := k + 1 } :: es,
      by simp [buildRanked, hs0, hes]⟩

/-- C10: when the ranker names an id with no matching generated sample the
request fails with HTTP 500 after exactly two judge calls — before any
Insertion Judge call — whereas duplicated ids among valid sample ids, or valid
ids omitted from rankedIds, are accepted silently and the pipeline still makes
the third (insertion) call. -/
theorem C10_ranked_ids_integrity :
    (∀ (data : Json) (g r i : JudgeResult) (t c rb : String) (sc : Json)
        (samples rankedIds : List Json),
        validateStage data = .ok (t, c, rb, sc) →
        genStage g = .ok samples →
        rankStage r = .ok rankedIds →
        (∃ id ∈ rankedIds, findSample samples id = .ok none) →
        respStatus (POST data g r i).1 = some 500 ∧ (POST data g r i).2 = 2) ∧
    (∀ (data : Json) (g r i : JudgeResult) (t c rb : String) (sc : Json)
        (samples rankedIds : List Json),
        validateStage data = .ok (t, c, rb, sc) →
        genStage g = .ok samples →
        rankStage r = .ok rankedIds →
        (∀ id ∈ rankedIds, ∃ s, findSample samples id = .ok (some s)) →
        (POST data g r i).2 = 3) := by
  constructor
  · intro data g r i t c rb sc samples rankedIds hval hgen hrank hex
    obtain ⟨m, hb⟩ := buildRanked_error_of_unmatched 0 hex
    constructor <;> simp [POST, hval, hgen, hrank, hb, respStatus]
  · intro data g r i t c rb sc samples rankedIds hval hgen hrank hall
    obtain ⟨entries, hb⟩ := buildRanked_ok_of_matched 0 hall
    simp only [POST, hval, hgen, hrank, hb]
    rcases insStage i with ⟨m, st⟩ | ⟨rank, reasoning⟩ <;> simp

/-- Witness for C10: ranked id 3 (unknown) stops the run at two calls with a
500; ranked ids `[1, 1]` (id 1 duplicated, id 2 omitted) reach the third
call. -/
theorem C10_witness :
    (respStatus (POST sampleRequest genJudgeOk rankJudgeUnknown insJudgeOk).1 = some 500 ∧
      (POST sampleRequest genJudgeOk rankJudgeUnknown insJudgeOk).2 = 2) ∧
    (POST sampleRequest genJudgeOk rankJudgeDup insJudgeOk).2 = 3 := by
  constructor
  · exact C10_ranked_ids_integrity.1 sampleRequest genJudgeOk rankJudgeUnknown insJudgeOk
      "t" "c" "r" (.num 10) genOkSamples [.num 1, .num 3]
      (by with_unfolding_all rfl) (by with_unfolding_all rfl) (by with_unfolding_all rfl)
      ⟨.num 3, List.Mem.tail _ (List.Mem.head _), by with_unfolding_all rfl⟩
  · refine C10_ranked_ids_integrity.2 sampleRequest genJudgeOk rankJudgeDup insJudgeOk
      "t" "c" "r" (.num 10) genOkSamples [.num 1, .num 1]
      (by with_unfolding_all rfl) (by with_unfolding_all rfl) (by with_unfolding_all rfl) ?_
    intro id hid
    rcases List.mem_cons.mp hid with rfl | h'
    · exact ⟨_, by with_unfolding_all rfl⟩
    rcases List.mem_cons.mp h' with rfl | h''
    · exact ⟨_, by with_unfolding_all rfl⟩
    · cases h''

/-- Splitting a non-empty list at its known head. -/
theorem head?_shape {l : List Char} {c : Char} (h : l.head? = some c) :
    ∃ tl, l = c :: tl := by
  cases l with
  | nil => simp at h
  | cons a tl =>
    simp only [List.head?_cons, Option.some.injEq] at h
    exact ⟨tl, by rw [h]⟩

/-- The last element of a list is a member. -/
theorem getLast?_mem_of_eq {l : List Char} {c : Char} (h : l.getLast? = some c) :
    c ∈ l := by
  rw [List.getLast?_eq_head?_reverse] at h
  exact (List.mem_reverse).mp (List.mem_of_mem_head? h)

/-- `dropWhile` scans past a block whose characters all satisfy the predicate. -/
theorem dropWhile_append_of_all {p : Char → Bool} {l₁ l₂ : List Char}
    (h : ∀ c ∈ l₁, p c = true) :
    (l₁ ++ l₂).dropWhile p = l₂.dropWhile p := by
  induction l₁ with
  | nil => rfl
  | cons c cs ih =>
    rw [List.cons_append, List.dropWhile_cons, if_pos (h c (List.mem_cons_self c cs))]
    exact ih (fun x hx => h x (List.mem_cons_of_mem c hx))

/-- A text that is already one brace-delimited block extracts to itself. -/
theorem extractJsonL_of_braced {l : List Char} (h1 : l.head? = some '{')
    (h2 : l.getLast? = some '}') : extractJsonL l = l := by
  obtain ⟨tl, rfl⟩ := head?_shape h1
  unfold extractJsonL
  have hd : ('{' :: tl).dropWhile (fun c => c != '{') = '{' :: tl := by
    rw [List.dropWhile_cons]
    simp
  rw [hd]
  have hcont : ('{' :: tl).contains '}' = true :=
    List.elem_iff.mpr (getLast?_mem_of_eq h2)
  simp only [hcont, if_true]
  have hrevhead : ('{' :: tl).reverse.head? = some '}' := by
    rw [List.head?_reverse]
    exact h2
  obtain ⟨tl2, hrev⟩ := head?_shape hrevhead
  rw [hrev, List.dropWhile_cons]
  simp only [bne_self_eq_false, if_false, Bool.false_eq_true]
  rw [← hrev, List.reverse_reverse]

/-- Wrapping a brace-delimited block in markdown fences does not change what
the route's brace-extraction regexp returns. -/
theorem extractJsonL_fenced {l : List Char} (h1 : l.head? = some '{')
    (h2 : l.getLast? = some '}') :
    extractJsonL (("```json\n").data ++ l ++ ("\n```").data) = l := by
  obtain ⟨tl, rfl⟩ := head?_shape h1
  unfold extractJsonL
  have hpre : ∀ c ∈ ("```json\n").data, (c != '{') = true := by decide
  rw [List.append_assoc, dropWhile_append_of_all hpre, List.cons_append,
    List.dropWhile_cons]
  simp only [bne_self_eq_false, if_false, Bool.false_eq_true]
  have hcont : ('{' :: (tl ++ ("\n```").data)).contains '}' = true := by
    refine List.elem_iff.mpr ?_
    have : '}' ∈ '{' :: tl := getLast?_mem_of_eq h2
    rcases List.mem_cons.mp this with h | h
    · exact List.mem_cons.mpr (Or.inl h)
    · exact List.mem_cons.mpr (Or.inr (List.mem_append_left _ h))
  simp only [hcont, if_true]
  have hsplit : ('{' :: (tl ++ ("\n```").data)) = ('{' :: tl) ++ ("\n```").data := by
    rw [List.cons_append]
  rw [hsplit, List.reverse_append]
  have hsuf : ∀ c ∈ (("\n```").data).reverse, (c != '}') = true := by decide
  rw [dropWhile_append_of_all hsuf]
  have hrevhead : ('{' :: tl).reverse.head? = some '}' := by
    rw [List.head?_reverse]
    exact h2
  obtain ⟨tl2, hrev⟩ := head?_shape hrevhead
  rw [hrev, List.dropWhile_cons]
  simp only [bne_self_eq_false, if_false, Bool.false_eq_true]
  rw [← hrev, List.reverse_reverse]

/-- Both sides of the fence-robustness statements extract to the same text. -/
theorem extract_fenced_string (inner : String) (h1 : inner.data.head? = some '{')
    (h2 : inner.data.getLast? = some '}') :
    extractJsonL (("```json\n" ++ inner ++ "\n```").data) = extractJsonL inner.data := by
  rw [String.data_append, String.data_append, extractJsonL_fenced h1 h2,
    extractJsonL_of_braced h1 h2]

/-- C7 (amended): markdown fences survive all three stages because the brace
extraction strips them, but the trailing-comma repair runs only in the
Generation stage: the Ranker and Insertion stages parse the raw extracted
text, so a trailing comma there raises the stage's parse error. -/
theorem C7_sanitization_only_at_generation :
    (∀ inner : String, inner.data.head? = some '{' → inner.data.getLast? = some '}' →
        rankParseCore ("```json\n" ++ inner ++ "\n```") = rankParseCore inner ∧
        insParseCore ("```json\n" ++ inner ++ "\n```") = insParseCore inner) ∧
    insStage insJudgeTrailing = .error ("AI 返回的排名結果格式錯誤，無法解析", 500) ∧
    rankParseCore ("```json\n" ++ ("\x7b\"rankedIds\":[4]\x7d") ++ "\n```") =
      .ok [.num 4] := by
  refine ⟨?_, by with_unfolding_all rfl, ?_⟩
  · intro inner h1 h2
    constructor
    · unfold rankParseCore
      rw [extract_fenced_string inner h1 h2]
    · unfold insParseCore
      rw [extract_fenced_string inner h1 h2]
  · have h := extract_fenced_string ("\x7b\"rankedIds\":[4]\x7d") (by decide) (by decide)
    unfold rankParseCore
    rw [h]
    with_unfolding_all rfl

/-- Counterexample for C7: a ranker completion with a trailing comma before
the closing brace fails with the ranker's parse error, although the
Generation-stage sanitizer would have repaired exactly that text. -/
theorem C7_counterexample :
    rankStage rankJudgeTrailing = .error ("AI 返回的排序結果格式錯誤，無法解析", 500) ∧
    jsonParseL (sanitizeGen (extractJsonL rankTrailingText.data)) =
      some (.obj [("rankedIds", .arr [.num 1, .num 2])]) :=
  ⟨by with_unfolding_all rfl, by with_unfolding_all rfl⟩

/-- Witness for C7: the fence-robustness part at a concrete ranker payload. -/
theorem C7_witness :
    rankParseCore ("```json\n" ++ ("\x7b\"rankedIds\":[9]\x7d") ++ "\n```") =
      rankParseCore ("\x7b\"rankedIds\":[9]\x7d") ∧
    insParseCore ("```json\n" ++ ("\x7b\"rankedIds\":[9]\x7d") ++ "\n```") =
      insParseCore ("\x7b\"rankedIds\":[9]\x7d") :=
  C7_sanitization_only_at_generation.1 ("\x7b\"rankedIds\":[9]\x7d")
    (by decide) (by decide)

/-- C8: a Generator completion wrapped in ```json fences parses exactly as the
unfenced text does, a trailing comma before a closing bracket or brace is
repaired, and a completion whose extracted structure lacks a non-empty
`samples` array makes the stage fail with a parse error rather than
substituting defaults. -/
theorem C8_generator_parse_robustness :
    (∀ inner : String, inner.data.head? = some '{' → inner.data.getLast? = some '}' →
        genParseCore ("```json\n" ++ inner ++ "\n```") = genParseCore inner) ∧
    genParseCore genTrailingText =
      .ok [.obj [("id", .num 1), ("targetScore", .num 5), ("content", .str "x")]] ∧
    (∀ (t : String) (v : Json),
        jsonParseL (sanitizeGen (extractJsonL t.data)) = some v →
        hasNonemptySamples v = false →
        exceptIsError (genParseCore t) = true) := by
  refine ⟨?_, by with_unfolding_all rfl, ?_⟩
  · intro inner h1 h2
    unfold genParseCore
    rw [extract_fenced_string inner h1 h2]
  · intro t v hv hs
    unfold genParseCore
    rw [hv]
    unfold hasNonemptySamples at hs
    rcases hf : jsGetField v ("samples") with e | fo
    · simp [hf, exceptIsError]
    rcases fo with _ | vv
    · simp [hf, exceptIsError]
    rcases vv with _ | b | qq | ss | elems | fields
    · simp [hf, exceptIsError]
    · simp [hf, exceptIsError]
    · simp [hf, exceptIsError]
    · simp [hf, exceptIsError]
    · rcases elems with _ | ⟨x, rest⟩
      · simp [hf, exceptIsError]
      · rw [hf] at hs
        simp at hs
    · simp [hf, exceptIsError]

/-- Witness for C8: fence robustness at a concrete payload, and a completion
without a `samples` array fails. -/
theorem C8_witness :
    genParseCore ("```json\n" ++ ("\x7b\"samples\":[\x7b\"id\":3\x7d]\x7d") ++ "\n```") =
      genParseCore ("\x7b\"samples\":[\x7b\"id\":3\x7d]\x7d") ∧
    exceptIsError (genParseCore ("\x7b\"nosamples\":1\x7d")) = true :=
  ⟨C8_generator_parse_robustness.1 ("\x7b\"samples\":[\x7b\"id\":3\x7d]\x7d")
      (by decide) (by decide),
   C8_generator_parse_robustness.2.2 ("\x7b\"nosamples\":1\x7d")
      (.obj [("nosamples", .num 1)]) (by with_unfolding_all rfl)
      (by with_unfolding_all rfl)⟩

/-- An infix of the right part of a concatenation is an infix of the whole. -/
theorem strContains_append_right {X Y sub : String} (h : strContains Y sub) :
    strContains (X ++ Y) sub := by
  unfold strContains at h ⊢
  rw [String.data_append]
  exact h.trans (List.suffix_append _ _).isInfix

/-- A member of the joined list is an infix of the join. -/
theorem mem_joinSep_infix {sep : String} {l : List String} {s : String} (h : s ∈ l) :
    s.data <:+: (joinSep sep l).data := by
  induction l with
  | nil => cases h
  | cons x xs ih =>
    rcases List.mem_cons.mp h with rfl | h'
    · cases xs with
      | nil => exact List.infix_rfl
      | cons y ys =>
        show s.data <:+: (s ++ sep ++ joinSep sep (y :: ys)).data
        rw [String.data_append, String.data_append, List.append_assoc]
        exact (List.prefix_append _ _).isInfix
    · cases xs with
      | nil => cases h'
      | cons y ys =>
        show s.data <:+: (x ++ sep ++ joinSep sep (y :: ys)).data
        rw [String.data_append]
        exact (ih h').trans (List.suffix_append _ _).isInfix

/-- The `[ID: <id>]` label occurs inside a listed essay block. -/
theorem idLabel_infix_block (s : PromptSample) :
    ("[ID: " ++ toString s.id ++ "]").data <:+: (insertRankBlock s).data := by
  refine ⟨("[排名: " ++ toString s.rank ++ "] ").data, ("\n" ++ s.content).data, ?_⟩
  unfold insertRankBlock
  simp only [String.data_append]
  simp [List.append_assoc, List.cons_append, List.nil_append]

/-- The essay text itself occurs inside its listed block. -/
theorem content_infix_block (s : PromptSample) :
    s.content.data <:+: (insertRankBlock s).data := by
  unfold insertRankBlock
  simp only [String.data_append]
  exact (List.suffix_append _ _).isInfix

/-- C6 (amended): the ranked corpus preserves the ranker's order — entry `j`
carries rank `j+1` and the sample matched to the `j`-th ranked id — and the
insertion user prompt lists each essay labelled with both its rank and its
internal sample id (ids are exposed to the judge); the fixed system prompt
asks for a JSON object with `rank` and `reasoning` fields, phrasing the corpus
size as 50 regardless of the actual sampleCount. -/
theorem C6_insertion_prompt_order_and_id_exposure :
    (∀ (samples ids : List Json) (k : Nat) (entries : List RankedSampleEntry),
        buildRanked samples ids k = .ok entries →
        entries.map (fun e => e.rank) = List.range' (k + 1) ids.length ∧
        List.Forall₂ (fun id e =>
          ∃ s, findSample samples id = .ok (some s) ∧
            RankedSampleEntry.id e = jsGet s ("id") ∧
            RankedSampleEntry.content e = jsGet s ("content")) ids entries) ∧
    (∀ (topic rubric content : String) (rankedSamples : List PromptSample),
        ∀ s ∈ rankedSamples,
          strContains (getInsertRankUserPrompt topic rubric content rankedSamples)
            ("[ID: " ++ toString s.id ++ "]") ∧
          strContains (getInsertRankUserPrompt topic rubric content rankedSamples)
            s.content) ∧
    (strContains getInsertRankPrompt ("\"rank\"") ∧
      strContains getInsertRankPrompt ("\"reasoning\"") ∧
      strContains getInsertRankPrompt ("50 篇")) := by
  refine ⟨?_, ?_, by decide, by decide, by decide⟩
  · intro samples ids
    induction ids with
    | nil =>
      intro k entries h
      simp only [buildRanked, Except.ok.injEq] at h
      subst h
      exact ⟨rfl, List.Forall₂.nil⟩
    | cons id0 rest ih =>
      intro k entries h
      rcases hf : findSample samples id0 with e | fo
      · simp [buildRanked, hf] at h
      rcases fo with _ | s
      · simp [buildRanked, hf] at h
      rcases hb : buildRanked samples rest (k + 1) with m | es
      · simp [buildRanked, hf, hb] at h
      simp only [buildRanked, hf, hb, Except.ok.injEq] at h
      subst h
      obtain ⟨hmap, hforall⟩ := ih (k + 1) es hb
      constructor
      · simp only [List.map_cons, hmap, List.length_cons, List.range'_succ]
      · exact List.Forall₂.cons ⟨s, hf, rfl, rfl⟩ hforall
  · intro topic rubric content rs s hs
    have hb : (insertRankBlock s).data <:+: (insertRankSamplesText rs).data :=
      mem_joinSep_infix (List.mem_map_of_mem _ hs)
    constructor
    · unfold getInsertRankUserPrompt
      exact strContains_append_right ((idLabel_infix_block s).trans hb)
    · unfold getInsertRankUserPrompt
      exact strContains_append_right ((content_infix_block s).trans hb)

/-- Counterexample for C6: the insertion user prompt does expose an internal
sample id — with a single ranked sample of id 1 the prompt contains the
substring `[ID: 1]`. -/
theorem C6_counterexample :
    strContains (getInsertRankUserPrompt ("題") ("標") ("文")
      [{ id := 1, content := "內", rank := 1 }]) ("[ID: 1]") := by
  decide

/-- Witness for C6: order and labelling at a concrete ranked corpus and
prompt. -/
theorem C6_witness :
    ((buildRankedEntriesFix).map (fun e => e.rank) = List.range' 1 2 ∧
      List.Forall₂ (fun id e =>
        ∃ s, findSample genOkSamples id = .ok (some s) ∧
          RankedSampleEntry.id e = jsGet s ("id") ∧
          RankedSampleEntry.content e = jsGet s ("content"))
        [Json.num 1, Json.num 2] buildRankedEntriesFix) ∧
    (strContains (getInsertRankUserPrompt ("t") ("r") ("c")
        [{ id := 7, content := "text7", rank := 1 }]) ("[ID: 7]") ∧
      strContains (getInsertRankUserPrompt ("t") ("r") ("c")
        [{ id := 7, content := "text7", rank := 1 }]) ("text7")) :=
  ⟨C6_insertion_prompt_order_and_id_exposure.1 genOkSamples [Json.num 1, Json.num 2] 0
      buildRankedEntriesFix (by with_unfolding_all rfl),
   C6_insertion_prompt_order_and_id_exposure.2.1 ("t") ("r") ("c")
      [{ id := 7, content := "text7", rank := 1 }]
      { id := 7, content := "text7", rank := 1 } (List.Mem.head _)⟩
